import Mathlib

/-!
# Verification of `delete_silent_wavs.py`

Shallow embedding of the silence-scanning utility `src/delete_silent_wavs.py`
(module constants, `get_peak_db`, `is_silent_fast`, `is_empty_wav`, and the
planning / confirmation / execution flow of `main`), together with theorems
settling the specification claims.

Modelling conventions:
* A WAV container that has been successfully opened is a `WavFile` record
  holding the header fields (`nFrames`, `nChannels`, `sampleWidth`) and the
  raw PCM data bytes.  Functions that can fail (unsupported sample width,
  zero channel count → `ZeroDivisionError` in Python) return `Option`,
  `none` standing for the Python `None` error result.
* Machine integers are `Nat`/`Int`; sample decoding performs the explicit
  little-endian reconstruction and sign extension the source performs.
* The real-valued dB computations (`10 ** (db / 20)`, `20 * log10 (...)`)
  are modelled exactly over the reals and then expressed by integer
  inequalities obtained by applying the strictly monotone map `x ↦ x ^ 20`
  to both sides (all quantities are nonnegative), so every definition
  stays executable.  Python evaluates these formulas in floating point;
  away from representation boundaries (as in every concrete instance used
  here) the float and real results agree.
-/

namespace DeleteSilentWavs

/-- Chunk byte budget `CHUNK_SIZE = 1024 * 1024` (source line 23). -/
def CHUNK_SIZE : Nat := 1024 * 1024

/-- The magnitude of the default silence threshold `SILENCE_THRESHOLD_DB = -115`
(source line 21): we carry `dbNeg = 115` so that the threshold in dB is
`-dbNeg`.  Classifier functions take `dbNeg` as a parameter so claims that
quantify over thresholds can be stated; the source fixes it to `115`. -/
def SILENCE_THRESHOLD_DB_NEG : Nat := 115

/-- An opened WAV container: header fields and the raw PCM frame bytes
(each byte `< 256`), as the `wave` module presents them. -/
structure WavFile where
  nFrames : Nat
  nChannels : Nat
  sampleWidth : Nat
  frameBytes : List Nat
deriving DecidableEq

/-- The `sample_width` dispatch shared by `get_peak_db` (lines 48-70) and
`is_silent_fast` (lines 153-171): returns `(max_val, center)` for supported
widths and `none` for the `else` branch ("Unsupported sample width"). -/
def widthParams (sampleWidth : Nat) : Option (Nat × Nat) :=
  if sampleWidth = 1 then some (127, 128)
  else if sampleWidth = 2 then some (32767, 0)
  else if sampleWidth = 4 then some (2147483647, 0)
  else if sampleWidth = 3 then some (8388607, 0)
  else none

/-- Little-endian byte composition: `b[0] | (b[1] << 8) | (b[2] << 16) | ...`
(source lines 90, 191 for the 3-byte case; the decoding the `array` module with
typecode `h` or `i` performs on a little-endian platform for widths 2 and 4). -/
def leValue : List Nat → Nat
  | [] => 0
  | b :: bs => b + 256 * leValue bs

/-- Twos-complement sign extension: `if val >= 0x800000: val -= 0x1000000`
(lines 91-92 / 192-193), generalised to the width used. -/
def signExtend (width : Nat) (v : Nat) : Int :=
  if 2 ^ (8 * width - 1) ≤ v then (v : Int) - 2 ^ (8 * width) else (v : Int)

/-- Split the raw bytes into consecutive groups of `width` bytes and decode
each group little-endian with sign extension.  A trailing incomplete group
is dropped, as by the `if i + 3 <= len(raw_data)` guard of the 24-bit loop
(lines 88-89 / 189-190); for widths 2 and 4 the `wave` module only ever
yields whole frames, so an incomplete group cannot occur. -/
def decodeGroups (width : Nat) : List Nat → List Int
  | [] => []
  | b :: bs =>
      if bs.length + 1 < width then []
      else signExtend width (leValue (b :: bs.take (width - 1))) ::
        decodeGroups width (bs.drop (width - 1))
termination_by l => l.length
decreasing_by
  simp only [List.length_cons, List.length_drop]
  omega

/-- Decode the raw bytes of one file into stored sample values: width 1 is
read as unsigned bytes (`array` typecode `B`, lines 50, 154), the other widths as
signed little-endian integers. -/
def decodeSamples (sampleWidth : Nat) (bytes : List Nat) : List Int :=
  if sampleWidth = 1 then bytes.map (fun b => (b : Int))
  else decodeGroups sampleWidth bytes

/-- The bytes the chunked read loop actually consumes: `readframes` is called
for `n_frames` frames in total (`while frames_read < n_frames`, bounded by
`min(frames_per_chunk, n_frames - frames_read)`), i.e. at most
`n_frames * n_channels * sample_width` bytes; if the file holds fewer bytes
the loop stops at the data's end (`if not raw_data: break`). -/
def scannedBytes (w : WavFile) : List Nat :=
  w.frameBytes.take (w.nFrames * w.nChannels * w.sampleWidth)

/-- The decoded, center-adjusted samples of the scanned data: the source
subtracts `center` (128 for width 1, 0 otherwise) before taking magnitudes
(lines 110-111, 204-205). -/
def scannedCentered (w : WavFile) (center : Nat) : List Int :=
  (decodeSamples w.sampleWidth (scannedBytes w)).map (fun s => s - (center : Int))

/-- `threshold_amplitude = int(max_val * (10 ** (-dbNeg / 20)))` (line 174).
The real value `maxVal * 10 ^ (-dbNeg / 20)` is nonnegative, so Python's
`int` truncation is the floor; the floor is the greatest `n` with
`n ≤ maxVal * 10 ^ (-dbNeg / 20)`, and raising both sides of that comparison
to the 20th power (strictly monotone on nonnegatives) turns it into the
integer inequality `n ^ 20 * 10 ^ dbNeg ≤ maxVal ^ 20`.  The search bound
`maxVal` suffices because `10 ^ (-dbNeg / 20) ≤ 1`. -/
def thresholdAmplitude (maxVal dbNeg : Nat) : Nat :=
  Nat.findGreatest (fun n => n ^ 20 * 10 ^ dbNeg ≤ maxVal ^ 20) maxVal

/-- `is_silent_fast` (lines 134-213), with the dB threshold magnitude as a
parameter (the source reads the module constant).  Structure mirrors the
source: zero-frame early return (146-147); width dispatch (153-171) —
unsupported width returns `None`; `frames_per_chunk = CHUNK_SIZE //
(n_channels * sample_width)` (177) raises `ZeroDivisionError` (caught, `None`)
when `n_channels = 0`, and when it is `0` the first `readframes` returns no
data and the loop breaks with no sample read (returning `True`); otherwise
every scanned sample's center-adjusted magnitude is compared against the
threshold with early exit (`return False` at 194-195 / 207-209, per-chunk
`min`/`max` for widths 1, 2, 4 — observably the same as the per-sample
comparison). -/
def is_silent_fast (dbNeg : Nat) (w : WavFile) : Option Bool :=
  if w.nFrames = 0 then some true
  else match widthParams w.sampleWidth with
  | none => none
  | some (maxVal, center) =>
      if w.nChannels = 0 then none
      else if CHUNK_SIZE / (w.nChannels * w.sampleWidth) = 0 then some true
      else
        some ((scannedCentered w center).all
          (fun s => s.natAbs ≤ thresholdAmplitude maxVal dbNeg))

/-- The peak value reported by `get_peak_db`: either minus infinity
(`float(-inf)` at line 120, when the peak amplitude is zero) or the symbolic real
`20 * log10 (peak / maxVal)` (line 122), represented by its data. -/
inductive PeakDb where
  | negInf : PeakDb
  | db : Nat → Nat → PeakDb
deriving DecidableEq

/-- `peak_amplitude`: running maximum of sample magnitudes (lines 95, 107,
114), starting from 0 (line 72). -/
def peakAmplitude (samples : List Int) : Nat :=
  samples.foldl (fun a s => max a s.natAbs) 0

/-- `get_peak_db` (lines 26-131): returns `(peak_db, is_all_zero)`, or `none`
for the error paths (unsupported width line 70, `ZeroDivisionError` at
line 76 when `n_channels = 0`).  Zero frames return `(-inf, True)` at
lines 41-42 before any header field other than `n_frames` is consulted;
a zero `frames_per_chunk` makes the loop break immediately with
`peak_amplitude = 0`, `is_all_zero = True`. -/
def get_peak_db (w : WavFile) : Option (PeakDb × Bool) :=
  if w.nFrames = 0 then some (PeakDb.negInf, true)
  else match widthParams w.sampleWidth with
  | none => none
  | some (maxVal, center) =>
      if w.nChannels = 0 then none
      else if CHUNK_SIZE / (w.nChannels * w.sampleWidth) = 0 then
        some (PeakDb.negInf, true)
      else
        let samples := scannedCentered w center
        let peak := peakAmplitude samples
        some (if peak = 0 then PeakDb.negInf else PeakDb.db peak maxVal,
          samples.all (fun s => s = 0))

/-- The comparison `peak_db <= SILENCE_THRESHOLD_DB` performed by
`is_empty_wav` in debug mode (line 236): `-inf ≤ -dbNeg` is true, and for a
nonzero peak `20 * log10 (peak / maxVal) ≤ -dbNeg` holds iff
`peak ^ 20 * 10 ^ dbNeg ≤ maxVal ^ 20` (divide by 20, apply the strictly
monotone `10 ^ ·`, then raise to the 20th power to clear roots). -/
def PeakDb.leDb (dbNeg : Nat) : PeakDb → Bool
  | PeakDb.negInf => true
  | PeakDb.db peak maxVal => peak ^ 20 * 10 ^ dbNeg ≤ maxVal ^ 20

/-- `is_empty_wav` (lines 223-240): in debug mode classify by comparing
the result of `get_peak_db` against the threshold, otherwise call
`is_silent_fast`. -/
def is_empty_wav (debug : Bool) (dbNeg : Nat) (w : WavFile) : Option Bool :=
  if debug then
    match get_peak_db w with
    | none => none
    | some (pdb, _) => some (pdb.leDb dbNeg)
  else is_silent_fast dbNeg w

/-! ### Python string primitives

The scanner and executor use a handful of `str` operations; they are
modelled as pure functions on the character list `String.data` (core's
`String.endsWith`/`trim`/`toLower` are not used because their byte-position
recursion does not reduce in witness evaluations).  The files handled here
are ASCII, for which these models coincide with Python's semantics. -/

/-- Python `s[:-n]` (for `n ≥ 1`): drop the last `n` characters, the empty
string when `len(s) ≤ n`. -/
def pyDropRight (n : Nat) (s : List Char) : List Char := s.take (s.length - n)

/-- Python `s.endswith(suf)`. -/
def pyEndsWith (s suf : List Char) : Bool := s.drop (s.length - suf.length) == suf

/-- Python `str.lower` on an ASCII character. -/
def pyToLower (c : Char) : Char :=
  if 'A' ≤ c ∧ c ≤ 'Z' then Char.ofNat (c.toNat + 32) else c

/-- Default whitespace set of Python `str.strip` (ASCII part). -/
def pyIsSpace (c : Char) : Bool :=
  c = ' ' || c = '\t' || c = '\n' || c = '\r' || c = '\x0b' || c = '\x0c'

/-- Python `s.strip()`: remove leading and trailing whitespace. -/
def pyStrip (s : List Char) : List Char :=
  ((s.dropWhile pyIsSpace).reverse.dropWhile pyIsSpace).reverse

/-! ### Scanner and plan construction (`main`, lines 270-316) -/

/-- One scanned file as `main` sees it: its name and the result of
`is_empty_wav` on it (`some true` = Silent, `some false` = NotSilent,
`none` = unreadable/unsupported). -/
structure ScanEntry where
  name : String
  result : Option Bool
deriving DecidableEq

/-- the check `name_without_ext = filename[:-4]` followed by
`name_without_ext.endswith` applied to the marker `_Master`
(lines 278-279). -/
def hasMasterSuffix (filename : String) : Bool :=
  pyEndsWith (pyDropRight 4 filename.data) "_Master".data

/-- The remove-set `empty_files`: every scanned file whose classification
came back `True` (lines 293-294 / 302-303). -/
def empty_files (entries : List ScanEntry) : List String :=
  (entries.filter (fun e => e.result == some true)).map ScanEntry.name

/-- The rename-set `master_files`: every scanned file whose stem ends in
`_Master` — appended before classification, lines 278-280 — and then, after
the loop, filtered by `[f for f in master_files if f not in empty_files]`
(line 316). -/
def master_files (entries : List ScanEntry) : List String :=
  ((entries.filter (fun e => hasMasterSuffix e.name)).map ScanEntry.name).filter
    (fun f => !(empty_files entries).contains f)

/-! ### Confirmation and execution (`main`, lines 337-388) -/

/-- `new_name = filename[:-11] + "__FULLMIX.wav"` (lines 333, 366). -/
def renameTarget (filename : String) : String :=
  String.mk (pyDropRight 11 filename.data ++ "__FULLMIX.wav".data)

/-- `response = input(...).strip().lower()` (line 337). -/
def normalizeResponse (response : String) : List Char :=
  (pyStrip response.data).map pyToLower

/-- The per-file result lines the execution phases print/record. -/
inductive Outcome where
  | recycled : String → Outcome
  | removedPermanently : String → Outcome
  | removeFailed : String → Outcome
  | renamedTo : String → String → Outcome
  | skippedTargetExists : String → Outcome
  | renameFailed : String → Outcome
deriving DecidableEq

/-- Environment facts the executor consults: whether `send2trash` imported
(`HAS_SEND2TRASH`, lines 13-17), and which individual attempts raise an
exception (`except` arms at lines 358-359 and 378-379). -/
structure ExecEnv where
  hasSend2Trash : Bool
  removeFails : String → Bool
  renameFails : String → Bool

/-- Mutable state of the execution phases: the set of file names on disk,
the recorded per-file outcomes, and the `deleted` / `renamed` tallies
(lines 346, 362). -/
structure ExecState where
  disk : List String
  outcomes : List Outcome
  removed : Nat
  renamed : Nat
deriving DecidableEq

/-- One iteration of the remove loop (lines 348-359): on an exception the
state is unchanged except for the recorded failure; otherwise the file is
sent to trash (or permanently deleted without `send2trash`) and the tally
increments. -/
def removeStep (env : ExecEnv) (st : ExecState) (filename : String) : ExecState :=
  if env.removeFails filename then
    { st with outcomes := st.outcomes ++ [Outcome.removeFailed filename] }
  else if env.hasSend2Trash then
    { disk := st.disk.erase filename
      outcomes := st.outcomes ++ [Outcome.recycled filename]
      removed := st.removed + 1, renamed := st.renamed }
  else
    { disk := st.disk.erase filename
      outcomes := st.outcomes ++ [Outcome.removedPermanently filename]
      removed := st.removed + 1, renamed := st.renamed }

/-- One iteration of the rename loop (lines 364-379): compute the target
name; if it already exists on disk, skip this entry
(`print("Skipped (target exists)"); continue`, lines 371-373); otherwise
attempt `os.rename`, recording an exception as a failure. -/
def renameStep (env : ExecEnv) (st : ExecState) (filename : String) : ExecState :=
  let newName := renameTarget filename
  if st.disk.contains newName then
    { st with outcomes := st.outcomes ++ [Outcome.skippedTargetExists filename] }
  else if env.renameFails filename then
    { st with outcomes := st.outcomes ++ [Outcome.renameFailed filename] }
  else
    { disk := st.disk.erase filename ++ [newName]
      outcomes := st.outcomes ++ [Outcome.renamedTo filename newName]
      removed := st.removed, renamed := st.renamed + 1 }

/-- The remove phase: the loop of lines 347-359 over `empty_files`. -/
def removePhase (env : ExecEnv) (st : ExecState) (files : List String) : ExecState :=
  files.foldl (removeStep env) st

/-- The rename phase: the loop of lines 363-379 over `master_files`. -/
def renamePhase (env : ExecEnv) (st : ExecState) (files : List String) : ExecState :=
  files.foldl (renameStep env) st

/-- The post-prompt tail of `main` (lines 337-388): if the normalized
response is not exactly `y`, return with nothing done (the source prints
Cancelled, makes no changes, and keeps zero tallies); otherwise run the remove phase and then the
rename phase. -/
def confirmAndExecute (env : ExecEnv) (response : String)
    (emptyFiles masterFiles : List String) (disk : List String) : ExecState :=
  if normalizeResponse response ≠ "y".data then
    { disk := disk, outcomes := [], removed := 0, renamed := 0 }
  else
    renamePhase env
      (removePhase env { disk := disk, outcomes := [], removed := 0, renamed := 0 }
        emptyFiles)
      masterFiles

/-- `is_silent_fast` as run with `SILENCE_THRESHOLD_DB` set to minus infinity:
then `10 ** (-inf / 20) = 0.0` and `threshold_amplitude = int(max_val * 0.0)`
is `0`; the rest of the function is unchanged. -/
def is_silent_fast_neg_inf (w : WavFile) : Option Bool :=
  if w.nFrames = 0 then some true
  else match widthParams w.sampleWidth with
  | none => none
  | some (_maxVal, center) =>
      if w.nChannels = 0 then none
      else if CHUNK_SIZE / (w.nChannels * w.sampleWidth) = 0 then some true
      else
        some ((scannedCentered w center).all (fun s => s.natAbs ≤ 0))

/-! ## Helper lemmas -/

/-- Characterisation of the integer amplitude threshold: an integer `n` is at
most `⌊maxVal * 10 ^ (-dbNeg / 20)⌋` exactly when `n ^ 20 * 10 ^ dbNeg ≤
maxVal ^ 20`. -/
theorem le_thresholdAmplitude_iff {M D n : Nat} :
    n ≤ thresholdAmplitude M D ↔ n ^ 20 * 10 ^ D ≤ M ^ 20 := by
  constructor
  · intro h
    have hP : (thresholdAmplitude M D) ^ 20 * 10 ^ D ≤ M ^ 20 := by
      have h0 := Nat.findGreatest_spec (P := fun k => k ^ 20 * 10 ^ D ≤ M ^ 20)
        (m := 0) (Nat.zero_le M) (by simp)
      simpa [thresholdAmplitude] using h0
    calc n ^ 20 * 10 ^ D ≤ (thresholdAmplitude M D) ^ 20 * 10 ^ D :=
          Nat.mul_le_mul_right _ (Nat.pow_le_pow_left h 20)
      _ ≤ M ^ 20 := hP
  · intro h
    have hnM : n ≤ M := by
      have h1 : n ^ 20 ≤ M ^ 20 :=
        le_trans (Nat.le_mul_of_pos_right _ (pow_pos (by norm_num) D)) h
      by_contra hlt
      have h2 : M ^ 20 < n ^ 20 := Nat.pow_lt_pow_left (Nat.lt_of_not_le hlt) (by norm_num)
      omega
    exact Nat.le_findGreatest hnM h

theorem foldl_max_le_iff (l : List Int) (a t : Nat) :
    l.foldl (fun x s => max x s.natAbs) a ≤ t ↔ a ≤ t ∧ ∀ s ∈ l, s.natAbs ≤ t := by
  induction l generalizing a with
  | nil => simp
  | cons s l ih => simp [ih, max_le_iff, and_assoc]

/-- The peak amplitude bounds every individual sample magnitude and is
bounded by any common bound of them. -/
theorem peakAmplitude_le_iff (l : List Int) (t : Nat) :
    peakAmplitude l ≤ t ↔ ∀ s ∈ l, s.natAbs ≤ t := by
  simpa [peakAmplitude] using foldl_max_le_iff l 0 t

/-- Core of the fast/debug agreement: comparing every sample against the
integer amplitude threshold gives the same boolean as comparing the peak dB
value against the dB threshold. -/
theorem fast_eq_debug_core (l : List Int) (M D : Nat) :
    (l.all fun s => s.natAbs ≤ thresholdAmplitude M D)
      = ((if peakAmplitude l = 0 then PeakDb.negInf
          else PeakDb.db (peakAmplitude l) M).leDb D) := by
  by_cases hp : peakAmplitude l = 0
  · rw [if_pos hp]
    show _ = true
    rw [List.all_eq_true]
    intro s hs
    have h1 : s.natAbs ≤ thresholdAmplitude M D :=
      (peakAmplitude_le_iff l (thresholdAmplitude M D)).mp (by omega) s hs
    exact decide_eq_true h1
  · rw [if_neg hp]
    show _ = decide (peakAmplitude l ^ 20 * 10 ^ D ≤ M ^ 20)
    apply Bool.eq_iff_iff.mpr
    rw [decide_eq_true_iff, ← le_thresholdAmplitude_iff, peakAmplitude_le_iff]
    simp only [List.all_eq_true, decide_eq_true_iff]

theorem sampleWidth_pos_of_widthParams {sw : Nat} {p : Nat × Nat}
    (h : widthParams sw = some p) : 0 < sw := by
  rcases Nat.eq_zero_or_pos sw with h0 | h1
  · subst h0; simp [widthParams] at h
  · exact h1

/-- When the per-frame byte count is positive and fits the chunk budget,
`frames_per_chunk` is nonzero (so the scan loop actually reads data). -/
theorem chunk_div_ne_zero {w : WavFile} {p : Nat × Nat}
    (hw : widthParams w.sampleWidth = some p) (hch : w.nChannels ≠ 0)
    (hle : w.nChannels * w.sampleWidth ≤ CHUNK_SIZE) :
    CHUNK_SIZE / (w.nChannels * w.sampleWidth) ≠ 0 :=
  Nat.pos_iff_ne_zero.mp (Nat.div_pos hle
    (Nat.mul_pos (Nat.pos_of_ne_zero hch) (sampleWidth_pos_of_widthParams hw)))

/-- Magnitude at most zero is the same as being exactly zero. -/
theorem all_natAbs_le_zero (l : List Int) :
    (l.all fun s => s.natAbs ≤ 0) = (l.all fun s => s = 0) := by
  apply Bool.eq_iff_iff.mpr
  simp only [List.all_eq_true, decide_eq_true_iff, Nat.le_zero, Int.natAbs_eq_zero]

theorem decodeSamples_nil (width : Nat) : decodeSamples width [] = [] := by
  rw [decodeSamples, decodeGroups]
  simp

/-- Default amplitude threshold at width 2: `⌊32767 * 10 ^ (-115 / 20)⌋ = 0`
(the real value is about `0.058`), because `32767 ^ 20 < 10 ^ 115`. -/
theorem thrAmp_default : thresholdAmplitude 32767 115 = 0 := by
  rw [thresholdAmplitude, Nat.findGreatest_eq_zero_iff]
  intro n hn _ h
  have h1 : (10 : Nat) ^ 115 ≤ n ^ 20 * 10 ^ 115 :=
    Nat.le_mul_of_pos_left _ (Nat.pos_pow_of_pos 20 hn)
  have h2 : (32767 : Nat) ^ 20 < 10 ^ 115 := by norm_num
  omega

/-! ## Claim theorems -/

/-- C1, counterexample: with the default configuration (threshold `-115` dB)
at width 2 the integer amplitude threshold is `0`, not approximately `5`,
and the fast classifier does NOT classify a one-frame mono 16-bit file with
peak magnitude 5 (bytes `[5, 0]`) as Silent — refuting the claim at that
concrete input. -/
theorem claim_C1_counterexample :
    thresholdAmplitude 32767 115 = 0 ∧
      is_silent_fast 115 ⟨1, 1, 2, [5, 0]⟩ ≠ some true := by
  refine ⟨thrAmp_default, ?_⟩
  rw [is_silent_fast]
  simp only [widthParams]
  norm_num [thrAmp_default, scannedCentered, scannedBytes, decodeSamples,
    decodeGroups, signExtend, leValue, CHUNK_SIZE]

/-- C1, amended: with the default configuration (threshold `-115` dB) on a
width-2 (16-bit, full-scale 32767) file, the threshold amplitude
`⌊32767 * 10 ^ (-115 / 20)⌋` is `0` (about `0.058` before flooring), so the
fast classifier classifies a file with peak magnitude 5 as NotSilent, a
file with peak magnitude 6 as NotSilent, and an all-zero file as Silent. -/
theorem claim_C1_amended_thm :
    thresholdAmplitude 32767 115 = 0 ∧
    is_silent_fast 115 ⟨1, 1, 2, [5, 0]⟩ = some false ∧
    is_silent_fast 115 ⟨1, 1, 2, [6, 0]⟩ = some false ∧
    is_silent_fast 115 ⟨1, 1, 2, [0, 0]⟩ = some true := by
  refine ⟨thrAmp_default, ?_, ?_, ?_⟩ <;>
  · rw [is_silent_fast]
    simp only [widthParams]
    norm_num [thrAmp_default, scannedCentered, scannedBytes, decodeSamples,
      decodeGroups, signExtend, leValue, CHUNK_SIZE]

/-- C2, counterexample: a file named `x_Master.wav` whose classification is
Unreadable (`is_empty_wav` returned `none`) is absent from the remove-set
but PRESENT in the rename-set `master_files` — refuting the claim that
Unreadable files appear in neither set. -/
theorem claim_C2_counterexample :
    (ScanEntry.mk "x_Master.wav" none).result = none ∧
    empty_files [ScanEntry.mk "x_Master.wav" none] = [] ∧
    master_files [ScanEntry.mk "x_Master.wav" none] = ["x_Master.wav"] := by
  refine ⟨rfl, by decide, by decide⟩

/-- C2, amended: a file whose classification is Unreadable (`is_empty_wav`
returned `none`) never appears in the remove-set `empty_files`; it is
excluded from the rename-set `master_files` only when its stem does not end
with `_Master` — when the stem does end with `_Master`, the Unreadable file
IS placed in the rename-set (the source appends to `master_files` before
classifying and only removes entries that are in `empty_files`). -/
theorem claim_C2_amended_thm (entries : List ScanEntry) (e : ScanEntry)
    (he : e ∈ entries) (hr : e.result = none)
    (hnd : (entries.map ScanEntry.name).Nodup) :
    e.name ∉ empty_files entries ∧
    (hasMasterSuffix e.name = false → e.name ∉ master_files entries) ∧
    (hasMasterSuffix e.name = true → e.name ∈ master_files entries) := by
  have hinj := List.inj_on_of_nodup_map hnd
  have h1 : e.name ∉ empty_files entries := by
    intro hmem
    simp only [empty_files, List.mem_map] at hmem
    obtain ⟨e2, he2mem, he2name⟩ := hmem
    rw [List.mem_filter] at he2mem
    have hee : e2 = e := hinj he2mem.1 he he2name
    rw [hee] at he2mem
    have := he2mem.2
    simp [hr] at this
  refine ⟨h1, ?_, ?_⟩
  · intro hsuf hmem
    rw [master_files, List.mem_filter] at hmem
    obtain ⟨hmap, -⟩ := hmem
    simp only [List.mem_map] at hmap
    obtain ⟨e2, he2mem, he2name⟩ := hmap
    rw [List.mem_filter] at he2mem
    have hee : e2 = e := hinj he2mem.1 he he2name
    rw [hee] at he2mem
    rw [he2mem.2] at hsuf
    exact Bool.true_eq_false.mp hsuf
  · intro hsuf
    rw [master_files, List.mem_filter]
    refine ⟨List.mem_map.mpr ⟨e, List.mem_filter.mpr ⟨he, hsuf⟩, rfl⟩, ?_⟩
    simpa using h1

/-- C2, witness: the amended claim applied to the single Unreadable file
`x_Master.wav`. -/
theorem claim_C2_witness :
    "x_Master.wav" ∉ empty_files [ScanEntry.mk "x_Master.wav" none] ∧
    (hasMasterSuffix "x_Master.wav" = false →
      "x_Master.wav" ∉ master_files [ScanEntry.mk "x_Master.wav" none]) ∧
    (hasMasterSuffix "x_Master.wav" = true →
      "x_Master.wav" ∈ master_files [ScanEntry.mk "x_Master.wav" none]) :=
  claim_C2_amended_thm [ScanEntry.mk "x_Master.wav" none]
    (ScanEntry.mk "x_Master.wav" none) (by simp) rfl (by decide)

/-- C3: every file classified Silent (`is_empty_wav` returned `some true`)
appears in the remove-set `empty_files` and never in the rename-set
`master_files`, even when its stem ends with `_Master`; moreover the two
action lists are disjoint, the remove-set taking priority. -/
theorem claim_C3 (entries : List ScanEntry) :
    (∀ e ∈ entries, e.result = some true →
      e.name ∈ empty_files entries ∧ e.name ∉ master_files entries) ∧
    (∀ f ∈ master_files entries, f ∉ empty_files entries) := by
  have hdisj : ∀ f ∈ master_files entries, f ∉ empty_files entries := by
    intro f hf
    rw [master_files, List.mem_filter] at hf
    simpa using hf.2
  refine ⟨?_, hdisj⟩
  intro e he hres
  have hmem : e.name ∈ empty_files entries :=
    List.mem_map.mpr ⟨e, List.mem_filter.mpr ⟨he, by simp [hres]⟩, rfl⟩
  exact ⟨hmem, fun hmf => hdisj _ hmf hmem⟩

/-- C3, witness: a Silent file whose stem ends with `_Master` lands in the
remove-set only. -/
theorem claim_C3_witness :
    "a_Master.wav" ∈ empty_files [ScanEntry.mk "a_Master.wav" (some true)] ∧
    "a_Master.wav" ∉ master_files [ScanEntry.mk "a_Master.wav" (some true)] :=
  (claim_C3 [ScanEntry.mk "a_Master.wav" (some true)]).1
    (ScanEntry.mk "a_Master.wav" (some true)) (by simp) rfl

/-- C4: for every file and every threshold, diagnostic mode (classify by
comparing the full-scan peak dB of `get_peak_db` against the threshold) and
the default fast path (`is_silent_fast`) return the same classification —
including the error (`none`) cases, so in particular for every readable
file of supported sample width. -/
theorem claim_C4 (dbNeg : Nat) (w : WavFile) :
    is_empty_wav true dbNeg w = is_empty_wav false dbNeg w := by
  show (match get_peak_db w with
        | none => none
        | some (pdb, _) => some (pdb.leDb dbNeg)) = is_silent_fast dbNeg w
  rw [get_peak_db, is_silent_fast]
  by_cases hf : w.nFrames = 0
  · rw [if_pos hf, if_pos hf]
    simp [PeakDb.leDb]
  · rw [if_neg hf, if_neg hf]
    rcases hw : widthParams w.sampleWidth with _ | ⟨M, c⟩
    · rfl
    · dsimp only
      by_cases hc : w.nChannels = 0
      · rw [if_pos hc, if_pos hc]
      · rw [if_neg hc, if_neg hc]
        by_cases hk : CHUNK_SIZE / (w.nChannels * w.sampleWidth) = 0
        · rw [if_pos hk, if_pos hk]
          simp [PeakDb.leDb]
        · rw [if_neg hk, if_neg hk]
          simp only
          congr 1
          exact (fast_eq_debug_core (scannedCentered w c) M dbNeg).symm

/-- C5: at threshold minus infinity the fast classifier classifies a file
Silent iff every decoded, center-adjusted sample is exactly zero (for
width 1 the raw byte equals the center 128, since `scannedCentered`
subtracts the center), i.e. it coincides with the exact-zero policy — the
`is_all_zero` flag `get_peak_db` computes. -/
theorem claim_C5 (w : WavFile) (M c : Nat)
    (hw : widthParams w.sampleWidth = some (M, c))
    (hch : w.nChannels ≠ 0)
    (hle : w.nChannels * w.sampleWidth ≤ CHUNK_SIZE) :
    is_silent_fast_neg_inf w = some ((scannedCentered w c).all (fun s => s = 0)) ∧
    is_silent_fast_neg_inf w = (get_peak_db w).map Prod.snd := by
  have hk := chunk_div_ne_zero hw hch hle
  by_cases hf : w.nFrames = 0
  · have hsc : scannedCentered w c = [] := by
      simp [scannedCentered, scannedBytes, hf, decodeSamples_nil]
    rw [is_silent_fast_neg_inf, if_pos hf, get_peak_db, if_pos hf, hsc]
    exact ⟨rfl, rfl⟩
  · rw [is_silent_fast_neg_inf, if_neg hf, get_peak_db, if_neg hf, hw]
    dsimp only
    rw [if_neg hch, if_neg hch, if_neg hk, if_neg hk]
    refine ⟨by rw [all_natAbs_le_zero], ?_⟩
    dsimp only [Option.map]
    rw [all_natAbs_le_zero]

/-- C5, witness: a two-frame all-zero 16-bit mono file. -/
theorem claim_C5_witness :
    is_silent_fast_neg_inf ⟨2, 1, 2, [0, 0, 0, 0]⟩ =
      some ((scannedCentered ⟨2, 1, 2, [0, 0, 0, 0]⟩ 0).all (fun s => s = 0)) ∧
    is_silent_fast_neg_inf ⟨2, 1, 2, [0, 0, 0, 0]⟩ =
      (get_peak_db ⟨2, 1, 2, [0, 0, 0, 0]⟩).map Prod.snd :=
  claim_C5 ⟨2, 1, 2, [0, 0, 0, 0]⟩ 32767 0 rfl (by decide) (by decide)

/-- C6: for every supported sample width and every (nonpositive-dB)
threshold, a file whose peak magnitude equals exactly the computed integer
threshold amplitude is classified Silent (the boundary comparison is the
inclusive `≤`), and a file containing a sample whose magnitude is one unit
above the threshold amplitude is classified NotSilent. -/
theorem claim_C6 (dbNeg : Nat) (w : WavFile) (M c : Nat)
    (hw : widthParams w.sampleWidth = some (M, c))
    (hch : w.nChannels ≠ 0)
    (hle : w.nChannels * w.sampleWidth ≤ CHUNK_SIZE) :
    (peakAmplitude (scannedCentered w c) = thresholdAmplitude M dbNeg →
      is_silent_fast dbNeg w = some true) ∧
    (w.nFrames ≠ 0 →
      (∃ s ∈ scannedCentered w c, s.natAbs = thresholdAmplitude M dbNeg + 1) →
      is_silent_fast dbNeg w = some false) := by
  have hk := chunk_div_ne_zero hw hch hle
  constructor
  · intro hpk
    by_cases hf : w.nFrames = 0
    · rw [is_silent_fast, if_pos hf]
    · rw [is_silent_fast, if_neg hf, hw]
      dsimp only
      rw [if_neg hch, if_neg hk]
      congr 1
      rw [List.all_eq_true]
      intro s hs
      exact decide_eq_true
        ((peakAmplitude_le_iff _ _).mp (le_of_eq hpk) s hs)
  · intro hf hs
    obtain ⟨s, hsmem, hsval⟩ := hs
    rw [is_silent_fast, if_neg hf, hw]
    dsimp only
    rw [if_neg hch, if_neg hk]
    congr 1
    rw [List.all_eq_false]
    refine ⟨s, hsmem, ?_⟩
    simp only [decide_eq_true_eq]
    omega

/-- C6, witness: at threshold `-20` dB and width 1 (full scale 127) the
threshold amplitude is `⌊12.7⌋ = 12`; the byte 140 decodes to magnitude 12
(Silent at the boundary) and the byte 141 to magnitude 13 (NotSilent). -/
theorem claim_C6_witness :
    (peakAmplitude (scannedCentered ⟨1, 1, 1, [140]⟩ 128) = thresholdAmplitude 127 20 →
      is_silent_fast 20 ⟨1, 1, 1, [140]⟩ = some true) ∧
    is_silent_fast 20 ⟨1, 1, 1, [140]⟩ = some true ∧
    is_silent_fast 20 ⟨1, 1, 1, [141]⟩ = some false :=
  ⟨(claim_C6 20 ⟨1, 1, 1, [140]⟩ 127 128 rfl (by decide) (by decide)).1,
   (claim_C6 20 ⟨1, 1, 1, [140]⟩ 127 128 rfl (by decide) (by decide)).1 (by decide),
   (claim_C6 20 ⟨1, 1, 1, [141]⟩ 127 128 rfl (by decide) (by decide)).2 (by decide)
     (by decide)⟩

/-- C7: whenever the stripped, lowercased confirmation response is not
exactly `y` — the empty reply included — no filesystem mutation happens:
the disk is unchanged, no outcome (trash, delete or rename) is recorded,
and the removed and renamed tallies are both zero. -/
theorem claim_C7 (env : ExecEnv) (response : String)
    (emptyFiles masterFiles disk : List String)
    (h : normalizeResponse response ≠ "y".data) :
    confirmAndExecute env response emptyFiles masterFiles disk =
      { disk := disk, outcomes := [], removed := 0, renamed := 0 } := by
  rw [confirmAndExecute, if_pos h]

/-- C7, witness: the empty response cancels with nonempty action lists. -/
theorem claim_C7_witness :
    confirmAndExecute ⟨true, fun _ => false, fun _ => false⟩ ""
      ["a.wav"] ["b_Master.wav"] ["a.wav", "b_Master.wav"] =
      { disk := ["a.wav", "b_Master.wav"], outcomes := [], removed := 0, renamed := 0 } :=
  claim_C7 ⟨true, fun _ => false, fun _ => false⟩ "" ["a.wav"] ["b_Master.wav"]
    ["a.wav", "b_Master.wav"] (by decide)

/-- C8: when the computed rename target of an entry already exists on disk
at the moment the entry is processed, the rename step records a
skipped-target-exists outcome (not an error) and leaves the state otherwise
untouched: the disk — hence the original file — is unchanged, nothing is
overwritten, and the renamed tally does not increase. -/
theorem claim_C8 (env : ExecEnv) (st : ExecState) (filename : String)
    (h : renameTarget filename ∈ st.disk) :
    renameStep env st filename =
      { st with outcomes := st.outcomes ++ [Outcome.skippedTargetExists filename] } := by
  have hc : st.disk.contains (renameTarget filename) = true := by simpa using h
  rw [renameStep]
  simp only [hc, if_true]

/-- C8, witness: renaming `b_Master.wav` while `b__FULLMIX.wav` is on disk
is skipped and recorded, the disk unchanged. -/
theorem claim_C8_witness :
    renameStep ⟨true, fun _ => false, fun _ => false⟩
      ⟨["b__FULLMIX.wav", "b_Master.wav"], [], 0, 0⟩ "b_Master.wav" =
      ⟨["b__FULLMIX.wav", "b_Master.wav"],
        [Outcome.skippedTargetExists "b_Master.wav"], 0, 0⟩ :=
  claim_C8 ⟨true, fun _ => false, fun _ => false⟩
    ⟨["b__FULLMIX.wav", "b_Master.wav"], [], 0, 0⟩ "b_Master.wav" (by decide)

/-- C9: a file whose header reports zero frames is classified Silent under
both policies — `get_peak_db` returns the pair (minus infinity, all-zero)
and `is_silent_fast` returns `True` for every threshold — regardless of the
frame data (which is never read: the conclusion holds for arbitrary
`frameBytes`). -/
theorem claim_C9 (w : WavFile) (dbNeg : Nat) (hf : w.nFrames = 0) :
    get_peak_db w = some (PeakDb.negInf, true) ∧
      is_silent_fast dbNeg w = some true :=
  ⟨by rw [get_peak_db, if_pos hf], by rw [is_silent_fast, if_pos hf]⟩

/-- C9, witness: a zero-frame stereo 16-bit file carrying loud junk bytes. -/
theorem claim_C9_witness :
    get_peak_db ⟨0, 2, 2, [255, 127]⟩ = some (PeakDb.negInf, true) ∧
      is_silent_fast 115 ⟨0, 2, 2, [255, 127]⟩ = some true :=
  claim_C9 ⟨0, 2, 2, [255, 127]⟩ 115 rfl

/-- C10: the zero-frame check precedes the sample-width check in both
classifiers, so a zero-frame file with an UNSUPPORTED sample width is
classified Silent (`some true`, not the Unreadable `none`) by
`is_empty_wav` in either mode, and its scan entry therefore lands in the
remove-set. -/
theorem claim_C10 (w : WavFile) (debug : Bool) (dbNeg : Nat)
    (hf : w.nFrames = 0) (_hw : widthParams w.sampleWidth = none)
    (nm : String) (entries : List ScanEntry)
    (he : ScanEntry.mk nm (is_empty_wav debug dbNeg w) ∈ entries) :
    is_empty_wav debug dbNeg w = some true ∧ nm ∈ empty_files entries := by
  have h1 : is_empty_wav debug dbNeg w = some true := by
    cases debug
    · show is_silent_fast dbNeg w = some true
      rw [is_silent_fast, if_pos hf]
    · show (match get_peak_db w with
            | none => none
            | some (pdb, _) => some (pdb.leDb dbNeg)) = some true
      rw [get_peak_db, if_pos hf]
      rfl
  refine ⟨h1, ?_⟩
  rw [h1] at he
  simp only [empty_files, List.mem_map]
  exact ⟨⟨nm, some true⟩, List.mem_filter.mpr ⟨he, by simp⟩, rfl⟩

/-- C10, witness: a zero-frame file with unsupported width 5 is Silent and
enters the remove-set. -/
theorem claim_C10_witness :
    is_empty_wav false 115 ⟨0, 1, 5, [9]⟩ = some true ∧
      "z.wav" ∈ empty_files [ScanEntry.mk "z.wav" (is_empty_wav false 115 ⟨0, 1, 5, [9]⟩)] :=
  claim_C10 ⟨0, 1, 5, [9]⟩ false 115 rfl rfl "z.wav" _ (by simp)

end DeleteSilentWavs
